import Mathlib

/-!
Shallow embedding of `src/scrapper/src/lib.rs` (wcag-scanner): a wasm
fetch bridge exposing `init_panic_hook` and `scrape_url`.  External
collaborators (the reqwest HTTP client, the JS console, the panic-hook
crate) are modelled as an explicit environment; the control flow,
message formats, header configuration and the `Uint8Array` allocation
and copy of the success path are translated from the source.
-/

namespace WcagScanner

/-- Numeric bound of a 32-bit unsigned integer: a Rust `usize as u32`
cast reduces the value modulo this constant. -/
def UINT32_MOD : Nat := 4294967296

/-- Model of the response head reqwest hands back on a successful send:
its status code, together with the outcome the environment will give to
a later `response.bytes().await` call (the full body as a byte list, or
a stream-error detail string). -/
structure HttpResponseM where
  status : Nat
  bytesResult : Except String (List Nat)
  deriving Repr

/-- Environment of one `scrape_url` call: the outcome of
`Client::builder()...build()`, the outcome of `client.get(&url).send().await`,
and the reason phrase the `http` crate's `Display for StatusCode` appends
after the numeric code (`canonical_reason().unwrap_or(...)`). -/
structure HttpEnv where
  buildResult : Except String Unit
  sendResult : Except String HttpResponseM
  canonicalReason : Nat → String

/-- Rendering of `format!("{}", status)` for a reqwest `StatusCode`:
the decimal code, a space, then the canonical reason phrase. -/
def statusDisplay (cr : Nat → String) (s : Nat) : String :=
  toString s ++ " " ++ cr s

/-- Translation of `StatusCode::is_success`: true exactly on 200..=299. -/
def statusIsSuccess (s : Nat) : Bool :=
  200 ≤ s && s < 300

/-- Model of a `js_sys::Uint8Array`: its byte contents. -/
structure Uint8ArrayM where
  data : List Nat
  deriving Repr, DecidableEq

/-- Translation of `Uint8Array::new_with_length(n)`: a zero-filled
typed array of length `n`. -/
def new_with_length (n : Nat) : Uint8ArrayM :=
  ⟨List.replicate n 0⟩

/-- Translation of `Uint8Array::copy_from(&self, src)`: it asserts that
the array's length equals the source slice's length, panicking (modelled
as `none`) on mismatch, and otherwise fills the array with the source
bytes. -/
def Uint8ArrayM.copy_from (arr : Uint8ArrayM) (src : List Nat) : Option Uint8ArrayM :=
  if arr.data.length = src.length then some ⟨src⟩ else none

/-- Headers accumulated on a reqwest `ClientBuilder` by this component. -/
structure ClientConfig where
  addedHeaders : List (String × String)
  deriving Repr, DecidableEq

/-- Translation of `reqwest::Client::builder()`: a fresh builder with no
component-added headers. -/
def clientBuilder : ClientConfig :=
  ⟨[]⟩

/-- Translation of the builder method `.user_agent(v)`: records the
user-agent header on the builder. -/
def ClientConfig.user_agent (c : ClientConfig) (v : String) : ClientConfig :=
  ⟨c.addedHeaders ++ [("user-agent", v)]⟩

/-- How the promise returned by `future_to_promise` ends up: resolved
with a `Uint8Array`, rejected with a message string, or never settled
because the async task panicked (the `copy_from` length assertion). -/
inductive Settled where
  | ok (arr : Uint8ArrayM)
  | err (msg : String)
  | panicked
  deriving Repr, DecidableEq

/-- Whether the promise was actually settled (resolved or rejected);
a panicking task settles nothing. -/
def Settled.isSettled : Settled → Bool
  | .panicked => false
  | _ => true

/-- Observable steps of one `scrape_url` call, in order: the client
build attempt, the GET dispatch, the `bytes()` body read, and each
`console::error_1` line. -/
inductive ScrapeEvent where
  | buildClient
  | sendRequest (url : String)
  | readBody
  | consoleError (msg : String)
  deriving Repr, DecidableEq

/-- One complete run of the async task `scrape_url` spawns: how the
promise settled, the ordered event trace, and the client configuration
the builder accumulated before `build()`. -/
structure ScrapeRun where
  settled : Settled
  events : List ScrapeEvent
  clientConfig : ClientConfig
  deriving Repr, DecidableEq

/-- Translation of `scrape_url` (src/scrapper/src/lib.rs lines 12-58).
The four `match`/`if` branches, the four `format!` message strings, the
`console::error_1` call on every error branch, and the success path
`Uint8Array::new_with_length(len as u32)` + `copy_from` are carried over
one for one; the URL is only handed to the client, never inspected. -/
def scrape_url (url : String) (env : HttpEnv) : ScrapeRun :=
  let builder := clientBuilder.user_agent "wcag-scrapper/1.0"
  match env.buildResult with
  | .error e =>
      let error_msg := "Failed to build client: " ++ e
      ⟨.err error_msg, [.buildClient, .consoleError error_msg], builder⟩
  | .ok _ =>
      match env.sendResult with
      | .error e =>
          let error_msg := "Request failed: " ++ e
          ⟨.err error_msg, [.buildClient, .sendRequest url, .consoleError error_msg], builder⟩
      | .ok response =>
          if statusIsSuccess response.status then
            match response.bytesResult with
            | .ok html_bytes =>
                let array := new_with_length (html_bytes.length % UINT32_MOD)
                match array.copy_from html_bytes with
                | some arr =>
                    ⟨.ok arr, [.buildClient, .sendRequest url, .readBody], builder⟩
                | none =>
                    ⟨.panicked, [.buildClient, .sendRequest url, .readBody], builder⟩
            | .error e =>
                let error_msg := "Failed to get bytes: " ++ e
                ⟨.err error_msg,
                  [.buildClient, .sendRequest url, .readBody, .consoleError error_msg], builder⟩
          else
            let error_msg := "HTTP error: " ++ statusDisplay env.canonicalReason response.status
            ⟨.err error_msg,
              [.buildClient, .sendRequest url, .consoleError error_msg], builder⟩

/-- Process-wide state touched by `init_panic_hook`: the `std::sync::Once`
guard inside `console_error_panic_hook::set_once`, and whether the
console-error panic hook is currently the process panic hook. -/
structure ProcState where
  onceFlag : Bool
  consoleHookInstalled : Bool
  deriving Repr, DecidableEq

/-- Model of `console_error_panic_hook::set_once` (external crate): a
`std::sync::Once` runs `panic::set_hook(...)` on the first call only;
later calls are no-ops. -/
def set_once (s : ProcState) : ProcState :=
  if s.onceFlag then s else ⟨true, true⟩

/-- Translation of `init_panic_hook` (src/scrapper/src/lib.rs lines 6-9):
it just calls `console_error_panic_hook::set_once()`. -/
def init_panic_hook (s : ProcState) : ProcState :=
  set_once s

/-- Diagnostic lines the panic hook emits to the console when a panic
occurs: one if the console-error hook is installed (Rust keeps a single
process panic hook, so it never fires twice for one panic). -/
def panicDiagnosticLines (s : ProcState) : Nat :=
  if s.consoleHookInstalled then 1 else 0

/-- Phases of one `scrape_url` task, cut at the source's await points:
before `build()`, before `send().await`, before `bytes().await` (carrying
what that await will yield), and finished with a settlement. -/
inductive TaskPhase where
  | building
  | requesting
  | readingBody (bytesResult : Except String (List Nat))
  | finished (s : Settled)

/-- One cooperative step of a `scrape_url` task: each phase performs the
same branch of the source as the corresponding segment of `scrape_url`
between two await points; a finished task stays finished. -/
def taskStep (env : HttpEnv) : TaskPhase → TaskPhase
  | .building =>
      match env.buildResult with
      | .ok _ => .requesting
      | .error e => .finished (.err ("Failed to build client: " ++ e))
  | .requesting =>
      match env.sendResult with
      | .error e => .finished (.err ("Request failed: " ++ e))
      | .ok response =>
          if statusIsSuccess response.status then
            .readingBody response.bytesResult
          else
            .finished (.err ("HTTP error: " ++ statusDisplay env.canonicalReason response.status))
  | .readingBody br =>
      match br with
      | .ok html_bytes =>
          match (new_with_length (html_bytes.length % UINT32_MOD)).copy_from html_bytes with
          | some arr => .finished (.ok arr)
          | none => .finished .panicked
      | .error e => .finished (.err ("Failed to get bytes: " ++ e))
  | .finished s => .finished s

/-- Iterated task step. -/
def iterStep (env : HttpEnv) : Nat → TaskPhase → TaskPhase
  | 0, p => p
  | k + 1, p => iterStep env k (taskStep env p)

/-- One outstanding `scrape_url` invocation: its URL argument, its private
environment (its own client, request and response), and its phase.  No
field is shared with any other task. -/
structure ScrapeTask where
  url : String
  env : HttpEnv
  phase : TaskPhase

/-- Advance one task by one cooperative step; only its own phase moves. -/
def stepTaskOf (t : ScrapeTask) : ScrapeTask :=
  { t with phase := taskStep t.env t.phase }

/-- Scheduler action: give the time slice to task `i`; all other tasks
are untouched.  Out-of-range indices are no-ops. -/
def sysStep : List ScrapeTask → Nat → List ScrapeTask
  | [], _ => []
  | t :: ts, 0 => stepTaskOf t :: ts
  | t :: ts, i + 1 => t :: sysStep ts i

/-- Run a whole schedule (an arbitrary interleaving of task indices)
over a list of outstanding tasks. -/
def runSched (tasks : List ScrapeTask) (sched : List Nat) : List ScrapeTask :=
  sched.foldl sysStep tasks

/-- A fresh `scrape_url` invocation, not yet stepped. -/
def spawn (url : String) (env : HttpEnv) : ScrapeTask :=
  ⟨url, env, .building⟩

/-- Server answering 200 OK with body "hello". -/
def helloEnv : HttpEnv :=
  ⟨.ok (), .ok ⟨200, .ok [104, 101, 108, 108, 111]⟩, fun _ => "OK"⟩

/-- Server answering 204 with an empty body. -/
def emptyBodyEnv : HttpEnv :=
  ⟨.ok (), .ok ⟨204, .ok []⟩, fun _ => "No Content"⟩

/-- Server answering 404; the body bytes are present on the wire but the
error branch never asks for them. -/
def notFoundEnv : HttpEnv :=
  ⟨.ok (), .ok ⟨404, .ok [1, 2, 3]⟩, fun _ => "Not Found"⟩

/-- Client construction fails before any network activity. -/
def buildFailEnv : HttpEnv :=
  ⟨.error "tls backend unavailable", .error "unreachable", fun _ => ""⟩

/-- Transport failure on `send().await`. -/
def sendFailEnv : HttpEnv :=
  ⟨.ok (), .error "dns error for host", fun _ => ""⟩

/-- Stream failure on `bytes().await` after a 200 head. -/
def streamFailEnv : HttpEnv :=
  ⟨.ok (), .ok ⟨200, .error "connection reset mid-body"⟩, fun _ => "OK"⟩

/-- Server answering 200 with a body of exactly 2^32 bytes: `len as u32`
truncates to 0 and the `copy_from` length assertion fails. -/
def bigBodyEnv : HttpEnv :=
  ⟨.ok (), .ok ⟨200, .ok (List.replicate UINT32_MOD 0)⟩, fun _ => "OK"⟩

/-- First call of the concrete two-call concurrency scenario. -/
def callA : String × HttpEnv :=
  ("https://a.example/", helloEnv)

/-- Second call of the concrete two-call concurrency scenario. -/
def callB : String × HttpEnv :=
  ("https://b.example/", notFoundEnv)

theorem string_data_append (a b : String) : (a ++ b).data = a.data ++ b.data := rfl

theorem taskStep_finished (env : HttpEnv) (s : Settled) :
    taskStep env (.finished s) = .finished s := rfl

theorem iterStep_finished (env : HttpEnv) (k : Nat) (s : Settled) :
    iterStep env k (.finished s) = .finished s := by
  induction k with
  | zero => rfl
  | succ k ih => simpa [iterStep, taskStep_finished] using ih

theorem iterStep_add (env : HttpEnv) (a b : Nat) (p : TaskPhase) :
    iterStep env (a + b) p = iterStep env b (iterStep env a p) := by
  induction a generalizing p with
  | zero => simp [iterStep]
  | succ a ih =>
      have h : a + 1 + b = (a + b) + 1 := by omega
      rw [h]
      show iterStep env (a + b) (taskStep env p) = _
      rw [ih (taskStep env p)]
      rfl

/-- Three cooperative steps drive a fresh task to the very settlement
the direct translation `scrape_url` computes. -/
theorem iterStep_three (url : String) (env : HttpEnv) :
    iterStep env 3 .building = .finished ((scrape_url url env).settled) := by
  rcases env with ⟨hb, hs, cr⟩
  rcases hb with e | u
  · rfl
  · rcases hs with e | resp
    · rfl
    · rcases resp with ⟨st, br⟩
      by_cases h : statusIsSuccess st = true
      · rcases br with e | B
        · simp [iterStep, taskStep, scrape_url, h]
        · simp only [iterStep, taskStep, scrape_url, h, if_pos]
          rcases hcopy : (new_with_length (B.length % UINT32_MOD)).copy_from B with _ | arr <;>
            simp [hcopy]
      · simp [iterStep, taskStep, scrape_url, h]

theorem iterStep_ge_three (url : String) (env : HttpEnv) (k : Nat) (hk : 3 ≤ k) :
    iterStep env k .building = .finished ((scrape_url url env).settled) := by
  obtain ⟨m, rfl⟩ : ∃ m, k = 3 + m := ⟨k - 3, by omega⟩
  rw [iterStep_add, iterStep_three url env, iterStep_finished]

theorem getElem?_sysStep (ts : List ScrapeTask) (j i : Nat) :
    (sysStep ts j)[i]? = if i = j then ts[i]?.map stepTaskOf else ts[i]? := by
  induction ts generalizing i j with
  | nil => simp [sysStep]
  | cons t ts ih =>
      cases j with
      | zero =>
          cases i with
          | zero => simp [sysStep]
          | succ i => simp [sysStep]
      | succ j =>
          cases i with
          | zero => simp [sysStep]
          | succ i => simpa [sysStep] using ih j i

/-- After any schedule, task `i` has taken exactly as many steps as the
schedule named it, on its own private state — there is no cross-task
effect whatsoever. -/
theorem getElem?_runSched (tasks : List ScrapeTask) (sched : List Nat) (i : Nat) :
    (runSched tasks sched)[i]? =
      tasks[i]?.map (fun t => { t with phase := iterStep t.env (sched.count i) t.phase }) := by
  induction sched generalizing tasks with
  | nil =>
      simp [runSched, iterStep]
  | cons j sched ih =>
      show (runSched (sysStep tasks j) sched)[i]? = _
      rw [ih (sysStep tasks j), getElem?_sysStep]
      by_cases hij : i = j
      · subst hij
        rw [if_pos rfl, Option.map_map]
        have hc : List.count i (i :: sched) = List.count i sched + 1 := by
          simp [List.count_cons]
        rw [hc]
        cases tasks[i]? <;> rfl
      · simp [List.count_cons, hij]

/-- C1 (amended: restricted to bodies of fewer than 2^32 bytes, which
covers every body representable on the 32-bit wasm target): for every
URL whose server responds with a status in [200,299] and body B with
|B| < 2^32, `scrape_url` resolves the promise with exactly the bytes of
B, byte-for-byte and of the same length, including the empty body. -/
theorem scrape_url_resolves_2xx_body (url : String) (env : HttpEnv)
    (resp : HttpResponseM) (B : List Nat)
    (hbuild : env.buildResult = .ok ())
    (hsend : env.sendResult = .ok resp)
    (hst : statusIsSuccess resp.status = true)
    (hbytes : resp.bytesResult = .ok B)
    (hlen : B.length < UINT32_MOD) :
    ∃ arr, (scrape_url url env).settled = .ok arr
      ∧ arr.data = B ∧ arr.data.length = B.length := by
  refine ⟨⟨B⟩, ?_, rfl, rfl⟩
  simp [scrape_url, hbuild, hsend, hst, hbytes, new_with_length,
        Uint8ArrayM.copy_from, Nat.mod_eq_of_lt hlen]

/-- Helper: on the success path, a body whose length the `as u32` cast
does not preserve fails the `copy_from` length assertion, so the async
task panics. -/
theorem scrape_url_copy_mismatch (url : String) (env : HttpEnv)
    (resp : HttpResponseM) (B : List Nat)
    (hbuild : env.buildResult = .ok ())
    (hsend : env.sendResult = .ok resp)
    (hst : statusIsSuccess resp.status = true)
    (hbytes : resp.bytesResult = .ok B)
    (hmod : B.length % UINT32_MOD ≠ B.length) :
    (scrape_url url env).settled = Settled.panicked := by
  simp [scrape_url, hbuild, hsend, hst, hbytes, new_with_length,
        Uint8ArrayM.copy_from, hmod]

/-- Helper: a body of exactly 2^32 bytes is not preserved by the
`as u32` cast. -/
theorem replicate_u32_mod_ne :
    (List.replicate UINT32_MOD (0 : Nat)).length % UINT32_MOD
      ≠ (List.replicate UINT32_MOD (0 : Nat)).length := by
  rw [List.length_replicate, Nat.mod_self]
  decide

/-- C1 counterexample: a 200 response whose body has exactly 2^32 bytes
drives the success path into the `copy_from` length assertion (the
`len as u32` cast truncates 2^32 to 0), so the task panics and the
promise is not resolved with the body. -/
theorem scrape_url_huge_body_panics :
    (scrape_url "https://example.test/big" bigBodyEnv).settled = Settled.panicked :=
  scrape_url_copy_mismatch "https://example.test/big" bigBodyEnv
    ⟨200, .ok (List.replicate UINT32_MOD 0)⟩ (List.replicate UINT32_MOD 0)
    rfl rfl (by decide) rfl replicate_u32_mod_ne

/-- C1 witness: a 5-byte body "hello" under 200 and an empty body under
204 both resolve with exactly the body. -/
theorem scrape_url_resolves_2xx_body_witness :
    (∃ arr, (scrape_url "https://example.test/ok" helloEnv).settled = .ok arr
      ∧ arr.data = [104, 101, 108, 108, 111]
      ∧ arr.data.length = [104, 101, 108, 108, 111].length)
    ∧ (∃ arr, (scrape_url "https://example.test/empty" emptyBodyEnv).settled = .ok arr
      ∧ arr.data = ([] : List Nat) ∧ arr.data.length = ([] : List Nat).length) :=
  ⟨scrape_url_resolves_2xx_body _ helloEnv ⟨200, .ok [104, 101, 108, 108, 111]⟩ _
      rfl rfl (by decide) rfl (by decide),
   scrape_url_resolves_2xx_body _ emptyBodyEnv ⟨204, .ok []⟩ _
      rfl rfl (by decide) rfl (by decide)⟩

/-- C2: a non-2xx status S rejects the promise with the message
"HTTP error: " followed by the status rendering, which starts with the
literal decimal value of S, and the `bytes()` body read never happens
on this branch. -/
theorem scrape_url_non2xx_rejects (url : String) (env : HttpEnv) (resp : HttpResponseM)
    (hbuild : env.buildResult = .ok ())
    (hsend : env.sendResult = .ok resp)
    (hst : statusIsSuccess resp.status = false) :
    (scrape_url url env).settled = .err ("HTTP error: " ++ statusDisplay env.canonicalReason resp.status)
    ∧ ("HTTP error: " ++ toString resp.status).data
        <+: ("HTTP error: " ++ statusDisplay env.canonicalReason resp.status).data
    ∧ ScrapeEvent.readBody ∉ (scrape_url url env).events := by
  refine ⟨?_, ⟨(" " ++ env.canonicalReason resp.status).data, ?_⟩, ?_⟩
  · simp [scrape_url, hbuild, hsend, hst]
  · simp [statusDisplay, string_data_append, List.append_assoc]
  · simp [scrape_url, hbuild, hsend, hst]

/-- C2 witness: a 404 response rejects with "HTTP error: 404 Not Found"
and never reads the body. -/
theorem scrape_url_non2xx_rejects_witness :
    (scrape_url "https://example.test/missing" notFoundEnv).settled
      = .err ("HTTP error: " ++ statusDisplay notFoundEnv.canonicalReason 404)
    ∧ ("HTTP error: " ++ toString 404).data
        <+: ("HTTP error: " ++ statusDisplay notFoundEnv.canonicalReason 404).data
    ∧ ScrapeEvent.readBody ∉ (scrape_url "https://example.test/missing" notFoundEnv).events :=
  scrape_url_non2xx_rejects _ notFoundEnv ⟨404, .ok [1, 2, 3]⟩ rfl rfl (by decide)

/-- C3: each non-status failure kind rejects with exactly its table
message — "Failed to build client: ", "Request failed: ",
"Failed to get bytes: " followed by the detail — the request is
dispatched at most once (no retry), and the body-read failure path never
resolves with any byte payload. -/
theorem scrape_url_error_messages (url : String) (env : HttpEnv) :
    (∀ e, env.buildResult = .error e →
        (scrape_url url env).settled = .err ("Failed to build client: " ++ e))
    ∧ (∀ e, env.buildResult = .ok () → env.sendResult = .error e →
        (scrape_url url env).settled = .err ("Request failed: " ++ e))
    ∧ (∀ resp e, env.buildResult = .ok () → env.sendResult = .ok resp →
        statusIsSuccess resp.status = true → resp.bytesResult = .error e →
        (scrape_url url env).settled = .err ("Failed to get bytes: " ++ e)
        ∧ ∀ arr, (scrape_url url env).settled ≠ .ok arr)
    ∧ (scrape_url url env).events.count (ScrapeEvent.sendRequest url) ≤ 1 := by
  refine ⟨?_, ?_, ?_, ?_⟩
  · intro e h
    simp [scrape_url, h]
  · intro e hb h
    simp [scrape_url, hb, h]
  · intro resp e hb hs hst hbr
    constructor
    · simp [scrape_url, hb, hs, hst, hbr]
    · intro arr
      simp [scrape_url, hb, hs, hst, hbr]
  · rcases env with ⟨hb, hs, cr⟩
    rcases hb with e | u
    · simp [scrape_url]
    · rcases hs with e | ⟨st, br⟩
      · simp [scrape_url]
      · by_cases h : statusIsSuccess st = true
        · rcases br with e | B
          · simp [scrape_url, h]
          · simp only [scrape_url, h, if_pos]
            rcases hcopy : (new_with_length (B.length % UINT32_MOD)).copy_from B with _ | arr <;>
              simp [hcopy]
        · simp [scrape_url, h]

/-- C3 witness: the three failure kinds at concrete environments carry
exactly the table messages, and the stream failure resolves nothing. -/
theorem scrape_url_error_messages_witness :
    (scrape_url "https://x.test/" buildFailEnv).settled
      = .err ("Failed to build client: " ++ "tls backend unavailable")
    ∧ (scrape_url "https://x.test/" sendFailEnv).settled
      = .err ("Request failed: " ++ "dns error for host")
    ∧ ((scrape_url "https://x.test/" streamFailEnv).settled
      = .err ("Failed to get bytes: " ++ "connection reset mid-body")
      ∧ ∀ arr, (scrape_url "https://x.test/" streamFailEnv).settled ≠ .ok arr)
    ∧ (scrape_url "https://x.test/" streamFailEnv).events.count
        (ScrapeEvent.sendRequest "https://x.test/") ≤ 1 :=
  ⟨(scrape_url_error_messages "https://x.test/" buildFailEnv).1 "tls backend unavailable" rfl,
   (scrape_url_error_messages "https://x.test/" sendFailEnv).2.1 "dns error for host" rfl rfl,
   (scrape_url_error_messages "https://x.test/" streamFailEnv).2.2.1
      ⟨200, .error "connection reset mid-body"⟩ "connection reset mid-body"
      rfl rfl (by decide) rfl,
   (scrape_url_error_messages "https://x.test/" streamFailEnv).2.2.2⟩

/-- C4: when client construction fails, the promise is rejected with the
client-build message and the run performed no GET dispatch and no body
read. -/
theorem scrape_url_build_failure_no_network (url : String) (env : HttpEnv) (e : String)
    (hbuild : env.buildResult = .error e) :
    (scrape_url url env).settled = .err ("Failed to build client: " ++ e)
    ∧ (∀ u, ScrapeEvent.sendRequest u ∉ (scrape_url url env).events)
    ∧ ScrapeEvent.readBody ∉ (scrape_url url env).events := by
  refine ⟨?_, ?_, ?_⟩ <;> simp [scrape_url, hbuild]

/-- C4 witness: a failed client build at a concrete environment rejects
without any network event. -/
theorem scrape_url_build_failure_no_network_witness :
    (scrape_url "https://y.test/" buildFailEnv).settled
      = .err ("Failed to build client: " ++ "tls backend unavailable")
    ∧ (∀ u, ScrapeEvent.sendRequest u ∉ (scrape_url "https://y.test/" buildFailEnv).events)
    ∧ ScrapeEvent.readBody ∉ (scrape_url "https://y.test/" buildFailEnv).events :=
  scrape_url_build_failure_no_network "https://y.test/" buildFailEnv "tls backend unavailable" rfl

/-- Helper: every run either resolves, panics, or rejects with a message
whose `console::error_1` line is the very last event of the run. -/
theorem scrape_url_err_trace (url : String) (env : HttpEnv) :
    (∃ arr, (scrape_url url env).settled = .ok arr)
    ∨ (scrape_url url env).settled = .panicked
    ∨ ∃ pre m, (scrape_url url env).settled = .err m
        ∧ (scrape_url url env).events = pre ++ [ScrapeEvent.consoleError m] := by
  rcases env with ⟨hb, hs, cr⟩
  rcases hb with e | u
  · exact .inr (.inr ⟨[.buildClient], "Failed to build client: " ++ e, rfl, rfl⟩)
  · rcases hs with e | ⟨st, br⟩
    · exact .inr (.inr ⟨[.buildClient, .sendRequest url], "Request failed: " ++ e, rfl, rfl⟩)
    · cases hstat : statusIsSuccess st
      · refine .inr (.inr ⟨[.buildClient, .sendRequest url],
          "HTTP error: " ++ statusDisplay cr st, ?_, ?_⟩) <;>
          simp [scrape_url, hstat]
      · rcases br with e | B
        · refine .inr (.inr ⟨[.buildClient, .sendRequest url, .readBody],
            "Failed to get bytes: " ++ e, ?_, ?_⟩) <;>
            simp [scrape_url, hstat]
        · rcases hcopy : (new_with_length (B.length % UINT32_MOD)).copy_from B with _ | arr
          · exact .inr (.inl (by simp [scrape_url, hstat, hcopy]))
          · exact .inl ⟨arr, by simp [scrape_url, hstat, hcopy]⟩

/-- C5: on every failure branch the diagnostic line written to the
console is the run's last event before the promise is rejected, and its
string is identical to the rejection message. -/
theorem scrape_url_logs_rejection (url : String) (env : HttpEnv) (msg : String)
    (h : (scrape_url url env).settled = .err msg) :
    ScrapeEvent.consoleError msg ∈ (scrape_url url env).events
    ∧ (scrape_url url env).events.getLast? = some (ScrapeEvent.consoleError msg) := by
  rcases scrape_url_err_trace url env with ⟨arr, hok⟩ | hp | ⟨pre, m, herr, hev⟩
  · rw [h] at hok
    exact Settled.noConfusion hok
  · rw [h] at hp
    exact Settled.noConfusion hp
  · rw [h] at herr
    injection herr with hm
    subst hm
    rw [hev]
    refine ⟨by simp, ?_⟩
    rw [List.getLast?_append_cons]
    rfl

/-- C5 witness: the client-build failure logs exactly the rejected
string as its final console line. -/
theorem scrape_url_logs_rejection_witness :
    ScrapeEvent.consoleError ("Failed to build client: " ++ "tls backend unavailable")
      ∈ (scrape_url "https://w.test/" buildFailEnv).events
    ∧ (scrape_url "https://w.test/" buildFailEnv).events.getLast?
      = some (ScrapeEvent.consoleError ("Failed to build client: " ++ "tls backend unavailable")) :=
  scrape_url_logs_rejection "https://w.test/" buildFailEnv
    ("Failed to build client: " ++ "tls backend unavailable") rfl

/-- C6 (amended: whenever the success-path body, if any, has fewer than
2^32 bytes — every body representable on the 32-bit wasm target — the
promise is settled exactly once, resolved on the success path or
rejected on a failure path, and never both; a 2^32-byte body instead
panics the task and the promise is never settled). -/
theorem scrape_url_single_settlement (url : String) (env : HttpEnv)
    (hsmall : ∀ resp B, env.sendResult = .ok resp → resp.bytesResult = .ok B →
        B.length < UINT32_MOD) :
    ((scrape_url url env).settled).isSettled = true
    ∧ ∀ arr msg, ¬((scrape_url url env).settled = .ok arr
        ∧ (scrape_url url env).settled = .err msg) := by
  constructor
  · rcases env with ⟨hb, hs, cr⟩
    rcases hb with e | u
    · rfl
    · rcases hs with e | ⟨st, br⟩
      · rfl
      · cases hstat : statusIsSuccess st
        · simp [scrape_url, hstat, Settled.isSettled]
        · rcases br with e | B
          · simp [scrape_url, hstat, Settled.isSettled]
          · have hlen : B.length < UINT32_MOD := hsmall ⟨st, .ok B⟩ B rfl rfl
            simp [scrape_url, hstat, Settled.isSettled, new_with_length,
                  Uint8ArrayM.copy_from, Nat.mod_eq_of_lt hlen]
  · rintro arr msg ⟨h1, h2⟩
    rw [h1] at h2
    exact Settled.noConfusion h2

/-- C6 counterexample: with a 2^32-byte body the task panics at the
buffer copy, so the promise is neither resolved nor rejected — settled
zero times, not exactly once. -/
theorem scrape_url_huge_body_never_settled :
    ((scrape_url "https://example.test/big" bigBodyEnv).settled).isSettled = false := by
  rw [scrape_url_copy_mismatch "https://example.test/big" bigBodyEnv
      ⟨200, .ok (List.replicate UINT32_MOD 0)⟩ (List.replicate UINT32_MOD 0)
      rfl rfl (by decide) rfl replicate_u32_mod_ne]
  rfl

/-- C6 witness: the "hello" success run settles exactly once. -/
theorem scrape_url_single_settlement_witness :
    ((scrape_url "https://example.test/ok" helloEnv).settled).isSettled = true
    ∧ ∀ arr msg, ¬((scrape_url "https://example.test/ok" helloEnv).settled = .ok arr
        ∧ (scrape_url "https://example.test/ok" helloEnv).settled = .err msg) :=
  scrape_url_single_settlement "https://example.test/ok" helloEnv (by
    intro resp B hr hb
    have hr' : Except.ok (⟨200, Except.ok [104, 101, 108, 108, 111]⟩ : HttpResponseM)
        = Except.ok resp := hr
    injection hr' with h1
    subst h1
    have hb' : Except.ok [104, 101, 108, 108, 111] = Except.ok B := hb
    injection hb' with h2
    subst h2
    decide)

/-- C7: init is idempotent — a second call changes nothing, and a panic
after two init calls produces exactly as many diagnostic lines as after
one. -/
theorem init_panic_hook_idempotent (s : ProcState) :
    init_panic_hook (init_panic_hook s) = init_panic_hook s
    ∧ panicDiagnosticLines (init_panic_hook (init_panic_hook s))
        = panicDiagnosticLines (init_panic_hook s) := by
  have h : init_panic_hook (init_panic_hook s) = init_panic_hook s := by
    rcases s with ⟨f, hk⟩
    cases f <;> rfl
  exact ⟨h, by rw [h]⟩

/-- C8: for N ≥ 2 outstanding `scrape_url` calls on pairwise distinct
URLs, any interleaving that lets every task run to completion leaves
each task in exactly the final state its solo run produces — no
cross-call interference. -/
theorem runSched_no_interference (calls : List (String × HttpEnv)) (sched : List Nat)
    (_hN : 2 ≤ calls.length)
    (_hdistinct : calls.Pairwise (fun a b => a.1 ≠ b.1))
    (hsched : ∀ i, i < calls.length → 3 ≤ sched.count i)
    (i : Nat) (hi : i < calls.length) :
    (runSched (calls.map (fun c => spawn c.1 c.2)) sched)[i]? =
      some ⟨calls[i].1, calls[i].2,
        .finished ((scrape_url calls[i].1 calls[i].2).settled)⟩ := by
  rw [getElem?_runSched]
  have hmap : (calls.map (fun c => spawn c.1 c.2))[i]? =
      some (spawn calls[i].1 calls[i].2) := by
    rw [List.getElem?_map, List.getElem?_eq_getElem hi]
    rfl
  rw [hmap, Option.map_some']
  have hrun := iterStep_ge_three calls[i].1 calls[i].2 (sched.count i) (hsched i hi)
  show some (⟨calls[i].1, calls[i].2,
      iterStep calls[i].2 (sched.count i) TaskPhase.building⟩ : ScrapeTask) =
    some ⟨calls[i].1, calls[i].2,
      TaskPhase.finished ((scrape_url calls[i].1 calls[i].2).settled)⟩
  rw [hrun]

/-- C8 witness: two interleaved calls (a 200 fetch and a 404 fetch) end
exactly as their solo runs do. -/
theorem runSched_no_interference_witness :
    (runSched ([callA, callB].map (fun c => spawn c.1 c.2)) [0, 1, 0, 1, 0, 1])[0]? =
      some ⟨callA.1, callA.2, .finished ((scrape_url callA.1 callA.2).settled)⟩
    ∧ (runSched ([callA, callB].map (fun c => spawn c.1 c.2)) [0, 1, 0, 1, 0, 1])[1]? =
      some ⟨callB.1, callB.2, .finished ((scrape_url callB.1 callB.2).settled)⟩ :=
  ⟨runSched_no_interference [callA, callB] [0, 1, 0, 1, 0, 1] (by decide)
      (by simp [callA, callB]) (by decide) 0 (by decide),
   runSched_no_interference [callA, callB] [0, 1, 0, 1, 0, 1] (by decide)
      (by simp [callA, callB]) (by decide) 1 (by decide)⟩

/-- C9: every run configures its client with exactly one added header,
the constant user-agent "wcag-scrapper/1.0", whatever the URL and the
environment. -/
theorem scrape_url_user_agent_header (url : String) (env : HttpEnv) :
    (scrape_url url env).clientConfig.addedHeaders
      = [("user-agent", "wcag-scrapper/1.0")] := by
  rcases env with ⟨hb, hs, cr⟩
  rcases hb with e | u
  · rfl
  · rcases hs with e | ⟨st, br⟩
    · rfl
    · cases hstat : statusIsSuccess st
      · simp [scrape_url, hstat, clientBuilder, ClientConfig.user_agent]
      · rcases br with e | B
        · simp [scrape_url, hstat, clientBuilder, ClientConfig.user_agent]
        · rcases hcopy : (new_with_length (B.length % UINT32_MOD)).copy_from B with _ | arr <;>
            simp [scrape_url, hstat, hcopy, clientBuilder, ClientConfig.user_agent]

/-- C10: the success-path buffer is allocated with length equal to the
body length reduced modulo 2^32; the copy into it succeeds exactly when
the body length is below 2^32; and under that precondition the resolved
buffer's length equals the body's length. -/
theorem scrape_url_success_buffer (url : String) (env : HttpEnv)
    (resp : HttpResponseM) (B : List Nat)
    (hbuild : env.buildResult = .ok ())
    (hsend : env.sendResult = .ok resp)
    (hst : statusIsSuccess resp.status = true)
    (hbytes : resp.bytesResult = .ok B) :
    (new_with_length (B.length % UINT32_MOD)).data.length = B.length % UINT32_MOD
    ∧ (((new_with_length (B.length % UINT32_MOD)).copy_from B).isSome = true
        ↔ B.length < UINT32_MOD)
    ∧ (B.length < UINT32_MOD →
        ∃ arr, (scrape_url url env).settled = .ok arr ∧ arr.data.length = B.length) := by
  refine ⟨by simp [new_with_length], ?_, ?_⟩
  · simp only [new_with_length, Uint8ArrayM.copy_from, List.length_replicate]
    constructor
    · intro h
      by_cases hmod : B.length % UINT32_MOD = B.length
      · calc B.length = B.length % UINT32_MOD := hmod.symm
          _ < UINT32_MOD := Nat.mod_lt _ (by decide)
      · simp [hmod] at h
    · intro h
      simp [Nat.mod_eq_of_lt h]
  · intro hlen
    exact ⟨⟨B⟩, by simp [scrape_url, hbuild, hsend, hst, hbytes, new_with_length,
      Uint8ArrayM.copy_from, Nat.mod_eq_of_lt hlen], rfl⟩

/-- C10 witness: for the 5-byte "hello" body the allocation, the copy
and the resolved length behave as stated. -/
theorem scrape_url_success_buffer_witness :
    (new_with_length ([104, 101, 108, 108, 111].length % UINT32_MOD)).data.length
      = [104, 101, 108, 108, 111].length % UINT32_MOD
    ∧ (((new_with_length ([104, 101, 108, 108, 111].length % UINT32_MOD)).copy_from
          [104, 101, 108, 108, 111]).isSome = true
        ↔ [104, 101, 108, 108, 111].length < UINT32_MOD)
    ∧ ([104, 101, 108, 108, 111].length < UINT32_MOD →
        ∃ arr, (scrape_url "https://example.test/ok" helloEnv).settled = .ok arr
          ∧ arr.data.length = [104, 101, 108, 108, 111].length) :=
  scrape_url_success_buffer "https://example.test/ok" helloEnv
    ⟨200, .ok [104, 101, 108, 108, 111]⟩ [104, 101, 108, 108, 111]
    rfl rfl (by decide) rfl

end WcagScanner
